import Mathlib

/-!
Shallow embedding of `performance.cpp`, the cereal-vs-boost serialization
benchmark harness.

Modelling conventions:
* Elapsed times are natural numbers of milliseconds (the source uses
  `std::chrono::milliseconds`, an integer count).  The per-call durations are
  abstract oracles `Nat → Nat` giving the elapsed time of the i-th iteration's
  save/load calls, since wall-clock timing is nondeterministic.
* The serialized output of an adapter is deterministic in the payload (both
  boost and cereal binary archives are pure functions of the data), so the
  sink size `os.tellp()` observed after a save is modelled as a function of
  the payload alone.
* `double` quantities are modelled as rationals `ℚ`.  Lean's `ℚ` makes
  `x / 0 = 0` (a junk value) where IEEE-754 would produce `inf`/`NaN`; where a
  division by zero is reached we state exactly which divisor is zero, so the
  junk value never hides the event.
* Each run of `test` additionally returns the trace of adapter invocations it
  performed (which adapter, save or load, and the payload value each save call
  receives).  This trace is ghost instrumentation: it records the calls the
  C++ code makes, in program order.
-/

namespace Performance

/-- The two serialization libraries under test: the source's `boostBinary`
and `cerealBinary` structs, grouped by `struct binary` (lines 81-123). -/
inductive Adapter
  | boost
  | cereal
deriving DecidableEq

/-- One observable adapter call made by `test`.  A `save` event carries the
payload value the call receives (the source passes `data` by const
reference, line 158 / 173); a `load` event reads back the just-saved
stream (lines 163 / 178). -/
inductive Event (DataT : Type) where
  | save (adapter : Adapter) (payload : DataT)
  | load (adapter : Adapter)
deriving DecidableEq

/-- Environment of one call to `test<binary, DataT>`: the payload and the
behaviour of the two adapters on it.  Sizes (`os.tellp()` after a save) are
deterministic functions of the payload; per-call elapsed times are abstract
oracles indexed by the iteration counter `i` of the timing loop. -/
structure TestEnv (DataT : Type) where
  data : DataT
  boostSaveSize : DataT → Nat
  cerealSaveSize : DataT → Nat
  boostSaveMs : Nat → Nat
  boostLoadMs : Nat → Nat
  cerealSaveMs : Nat → Nat
  cerealLoadMs : Nat → Nat

/-- The mutable accumulators of `test` (source lines 144-151). -/
structure TestAccum where
  totalBoostSave : Nat
  totalBoostLoad : Nat
  totalCerealSave : Nat
  totalCerealLoad : Nat
  boostSize : Nat
  cerealSize : Nat
deriving DecidableEq

/-- Initial accumulator values: all totals and sizes start at zero
(source lines 144-151). -/
def initAccum : TestAccum :=
  { totalBoostSave := 0, totalBoostLoad := 0
    totalCerealSave := 0, totalCerealLoad := 0
    boostSize := 0, cerealSize := 0 }

/-- One iteration of the timing loop of `test` (source lines 153-184),
returning the updated accumulators and the adapter calls made, in order.
`if s.boostSize = 0 then _ else _` mirrors `if(!boostSize) boostSize =
os.tellp();` (lines 160-161, 175-176).  The `if validateData then [] else []`
terms mirror the validation branches (lines 166-167 and 181-182): the guarded
statement in the source is the empty statement `;` marked `// TODO`, so
nothing is performed in either branch. -/
def testIter {DataT : Type} (env : TestEnv DataT) (validateData : Bool)
    (i : Nat) (s : TestAccum) : TestAccum × List (Event DataT) :=
  let totalBoostSave := s.totalBoostSave + env.boostSaveMs i
  let boostSize := if s.boostSize = 0 then env.boostSaveSize env.data else s.boostSize
  let totalBoostLoad := s.totalBoostLoad + env.boostLoadMs i
  let boostEvents : List (Event DataT) :=
    [Event.save Adapter.boost env.data, Event.load Adapter.boost] ++
      (if validateData then [] else [])
  let totalCerealSave := s.totalCerealSave + env.cerealSaveMs i
  let cerealSize := if s.cerealSize = 0 then env.cerealSaveSize env.data else s.cerealSize
  let totalCerealLoad := s.totalCerealLoad + env.cerealLoadMs i
  let cerealEvents : List (Event DataT) :=
    [Event.save Adapter.cereal env.data, Event.load Adapter.cereal] ++
      (if validateData then [] else [])
  ({ totalBoostSave, totalBoostLoad, totalCerealSave, totalCerealLoad,
     boostSize, cerealSize },
   boostEvents ++ cerealEvents)

/-- The timing loop `for(size_t i = 0; i < numAverages; ++i)` of `test`
(source lines 153-184), folded over the iteration count. -/
def testLoop {DataT : Type} (env : TestEnv DataT) (validateData : Bool) :
    Nat → TestAccum × List (Event DataT)
  | 0 => (initAccum, [])
  | n + 1 =>
    let p := testLoop env validateData n
    let q := testIter env validateData n p.1
    (q.1, p.2 ++ q.2)

/-- The statistics `test` computes and prints (source lines 186-212):
averages, cereal-relative ratios, first-recorded sizes and raw totals. -/
structure Report where
  averageBoostSave : ℚ
  averageBoostLoad : ℚ
  averageCerealSave : ℚ
  averageCerealLoad : ℚ
  cerealSaveP : ℚ
  cerealLoadP : ℚ
  cerealSizeP : ℚ
  boostSize : Nat
  cerealSize : Nat
  totalBoostSave : Nat
  totalBoostLoad : Nat
  totalCerealSave : Nat
  totalCerealLoad : Nat
deriving DecidableEq

/-- The harness `test` (source lines 135-213): run the timing loop
`numAverages` times, then compute averages `total / numAverages`
(lines 187-191) and cereal-relative ratios (lines 194-196).  The source
applies these divisions unconditionally; `ℚ` division by zero yields the
junk value `0` where IEEE-754 doubles would yield `NaN`/`inf`.  In the
source `numAverages` defaults to 10 and `validateData` to `false`
(lines 138-139); callers here pass both explicitly.  Returns the report
together with the trace of adapter calls. -/
def test {DataT : Type} (env : TestEnv DataT) (numAverages : Nat)
    (validateData : Bool) : Report × List (Event DataT) :=
  let r := testLoop env validateData numAverages
  let s := r.1
  let averageBoostSave : ℚ := (s.totalBoostSave : ℚ) / (numAverages : ℚ)
  let averageBoostLoad : ℚ := (s.totalBoostLoad : ℚ) / (numAverages : ℚ)
  let averageCerealSave : ℚ := (s.totalCerealSave : ℚ) / (numAverages : ℚ)
  let averageCerealLoad : ℚ := (s.totalCerealLoad : ℚ) / (numAverages : ℚ)
  let cerealSaveP : ℚ := averageCerealSave / averageBoostSave
  let cerealLoadP : ℚ := averageCerealLoad / averageBoostLoad
  let cerealSizeP : ℚ := (s.cerealSize : ℚ) / (s.boostSize : ℚ)
  ({ averageBoostSave, averageBoostLoad, averageCerealSave, averageCerealLoad,
     cerealSaveP, cerealLoadP, cerealSizeP,
     boostSize := s.boostSize, cerealSize := s.cerealSize,
     totalBoostSave := s.totalBoostSave, totalBoostLoad := s.totalBoostLoad,
     totalCerealSave := s.totalCerealSave, totalCerealLoad := s.totalCerealLoad },
   r.2)

/-- Number of save calls the trace records for adapter `a`. -/
def countSaves {DataT : Type} (a : Adapter) (evs : List (Event DataT)) : Nat :=
  evs.countP fun e =>
    match e with
    | Event.save b _ => decide (b = a)
    | Event.load _ => false

/-- Number of load calls the trace records for adapter `a`. -/
def countLoads {DataT : Type} (a : Adapter) (evs : List (Event DataT)) : Nat :=
  evs.countP fun e =>
    match e with
    | Event.save _ _ => false
    | Event.load b => decide (b = a)

/-- Model of `std::uniform_int_distribution(a, b)(gen)` for `a ≤ b`: advance
the generator once and map the raw draw into the closed range `[a, b]` by
taking it modulo the range width; every value of the range is reached by
exactly one residue class of the raw draw, which is how the standard
distribution realises uniformity over `[a, b]`.  The generator (`std::mt19937`
in the source) is kept abstract as a state type `G` with a step function
`next : G → Nat × G`. -/
def uniform_int_distribution {G : Type} (next : G → Nat × G) (a b : Nat)
    (g : G) : Nat × G :=
  let r := next g
  (a + r.1 % (b - a + 1), r.2)

/-- The character-overwriting loop of `random_value<std::string>`
(source lines 230-231): each position of the string is replaced by a fresh
draw from `uniform_int_distribution<char>(0x20, 0x7E)` — the source writes the
bounds as the space character and the tilde character.  Characters are
modelled by their ASCII codes. -/
def stringFill {G : Type} (next : G → Nat × G) :
    List Nat → G → List Nat × G
  | [], g => ([], g)
  | _ :: cs, g =>
    let c := uniform_int_distribution next 32 126 g
    let rest := stringFill next cs c.2
    (c.1 :: rest.1, rest.2)

/-- The `random_value` specialization for `std::string` (source lines
225-233): build a string of length `uniform_int_distribution<int>(3, 30)(gen)`
filled with the space character, then overwrite every character with a draw
from the printable ASCII range.  The string is modelled as the list of its
character codes. -/
def random_value_string {G : Type} (next : G → Nat × G) (g : G) :
    List Nat × G :=
  let len := uniform_int_distribution next 3 30 g
  stringFill next (List.replicate len.1 32) len.2

/-- The `random_value` specialization for an integral type at `T = uint8_t`
(source lines 220-223): uniform over the full representable range
`[0, 255]`. -/
def random_value_uint8 {G : Type} (next : G → Nat × G) (g : G) : Nat × G :=
  uniform_int_distribution next 0 255 g

/-- The `random_value` specialization for a floating-point type at
`T = double` (source lines 215-218): `uniform_real_distribution(-10000.0,
10000.0)(gen)`.  The real-valued distribution of the standard library is
modelled as one abstract generator step mapped into the interval
`[-10000, 10000]`; the exact value is immaterial to the claims because the
driver never invokes it (its `randomize` flag is the constant `false`). -/
def random_value_double {G : Type} (next : G → Nat × G) (g : G) : ℚ × G :=
  let r := next g
  ((-10000 : ℚ) + ((r.1 % 20001 : Nat) : ℚ), r.2)

/-- The payload handed to one invocation of the harness by the driver.
Vector-of-double and vector-of-uint8 payloads carry their element values
(doubles as `ℚ`, bytes as `Nat`).  For the `PoDStruct` / `PoDChild` vectors
only the element count is modelled: no claim depends on their field values
(and in the source the `PoDStruct` base subobject of a `PoDChild` is
default-initialized, i.e. holds indeterminate values). -/
inductive Payload where
  | vecDouble (elems : List ℚ)
  | vecUInt8 (elems : List Nat)
  | vecPoDStruct (size : Nat)
  | vecPoDChild (size : Nat)
deriving DecidableEq

/-- The kind of a payload, used to state the benchmark matrix. -/
inductive PayloadKind
  | vecDouble
  | vecUInt8
  | vecPoDStruct
  | vecPoDChild
deriving DecidableEq

/-- Kind of a payload. -/
def Payload.kind : Payload → PayloadKind
  | .vecDouble _ => PayloadKind.vecDouble
  | .vecUInt8 _ => PayloadKind.vecUInt8
  | .vecPoDStruct _ => PayloadKind.vecPoDStruct
  | .vecPoDChild _ => PayloadKind.vecPoDChild

/-- Element count of a payload. -/
def Payload.count : Payload → Nat
  | .vecDouble es => es.length
  | .vecUInt8 es => es.length
  | .vecPoDStruct n => n
  | .vecPoDChild n => n

/-- One invocation of the harness `test<binary>` as made by the driver:
the test name, the payload, and the (defaulted) `numAverages = 10` and
`validateData = false` arguments. -/
structure Invocation where
  name : String
  payload : Payload
  numAverages : Nat
  validateData : Bool
deriving DecidableEq

/-- The driver's random-generator state: the abstract `std::mt19937` state
(of type `G`) plus a ghost counter of how many times the `rngC` / `rngD`
lambdas (source lines 299-300) have been invoked. -/
structure DriverGen (G : Type) where
  gen : G
  rngCalls : Nat

/-- The lambda `rngC = [&](){ return random_value<uint8_t>(gen); }`
(source line 299), instrumented to count its invocations. -/
def rngC {G : Type} (next : G → Nat × G) (st : DriverGen G) :
    Nat × DriverGen G :=
  let r := random_value_uint8 next st.gen
  (r.1, { gen := r.2, rngCalls := st.rngCalls + 1 })

/-- The lambda `rngD = [&](){ return random_value<double>(gen); }`
(source line 300), instrumented to count its invocations. -/
def rngD {G : Type} (next : G → Nat × G) (st : DriverGen G) :
    ℚ × DriverGen G :=
  let r := random_value_double next st.gen
  (r.1, { gen := r.2, rngCalls := st.rngCalls + 1 })

/-- The fill loop `for( auto & d : data ) d = rng();` over a
freshly value-initialized vector of `n` elements: every element is replaced
by a fresh draw, threading the generator state. -/
def fillWith {G α : Type} (rng : DriverGen G → α × DriverGen G) :
    Nat → DriverGen G → List α × DriverGen G
  | 0, st => ([], st)
  | n + 1, st =>
    let r := rng st
    let rest := fillWith rng n r.2
    (r.1 :: rest.1, rest.2)

/-- The compile-time constant `const bool randomize = false;`
(source line 301). -/
def randomize : Bool := false

/-- The driver lambda `vectorDoubleTest` (source lines 304-315):
value-initialize a vector of `s` doubles (all elements `0`), fill it with
`rngD()` draws when `randomize` is set, and invoke the harness under the
name built from the size.  Returns the harness invocation and the threaded
generator state. -/
def vectorDoubleTest {G : Type} (next : G → Nat × G) (s : Nat)
    (randomize : Bool) (st : DriverGen G) : Invocation × DriverGen G :=
  let filled :=
    if randomize then fillWith (rngD next) s st
    else (List.replicate s (0 : ℚ), st)
  ({ name := "Vector(double) size " ++ toString s,
     payload := Payload.vecDouble filled.1,
     numAverages := 10, validateData := false }, filled.2)

/-- The driver lambda `vectorCharTest` (source lines 323-334): the same for
a vector of `s` value-initialized `uint8_t` elements, filled with `rngC()`
draws when `randomize` is set. -/
def vectorCharTest {G : Type} (next : G → Nat × G) (s : Nat)
    (randomize : Bool) (st : DriverGen G) : Invocation × DriverGen G :=
  let filled :=
    if randomize then fillWith (rngC next) s st
    else (List.replicate s (0 : Nat), st)
  ({ name := "Vector(uint8_t) size " ++ toString s,
     payload := Payload.vecUInt8 filled.1,
     numAverages := 10, validateData := false }, filled.2)

/-- The driver lambda `vectorPoDStructTest` (source lines 339-346): a vector
of `s` value-initialized `PoDStruct` records; no randomize option. -/
def vectorPoDStructTest (s : Nat) : Invocation :=
  { name := "Vector(PoDStruct) size " ++ toString s,
    payload := Payload.vecPoDStruct s,
    numAverages := 10, validateData := false }

/-- The driver lambda `vectorPoDChildTest` (source lines 355-362): a vector
of `s` default-constructed `PoDChild` records; no randomize option. -/
def vectorPoDChildTest (s : Nat) : Invocation :=
  { name := "Vector(PoDChild) size " ++ toString s,
    payload := Payload.vecPoDChild s,
    numAverages := 10, validateData := false }

/-- The result of one run of the driver: the harness invocations in program
order, the process exit code, and the ghost count of `rngC` / `rngD`
invocations. -/
structure DriverRun where
  invocations : List Invocation
  exitCode : Nat
  rngCalls : Nat
deriving DecidableEq

/-- The driver `main` (source lines 295-367): seed the generator from
`std::random_device` (the seed is the abstract initial state `seed : G`),
then run the fixed benchmark matrix in program order — Vector(double) of
sizes 1, 16, 1024, 1024·1024; Vector(uint8_t) of size 1024·1024·1024;
Vector(PoDStruct) of sizes 1, 64, 1024, 1024·1024, 1024·1024·64;
Vector(PoDChild) of size 1024·64 — and `return 0`. -/
def main {G : Type} (next : G → Nat × G) (seed : G) : DriverRun :=
  let st0 : DriverGen G := { gen := seed, rngCalls := 0 }
  let d1 := vectorDoubleTest next 1 randomize st0
  let d2 := vectorDoubleTest next 16 randomize d1.2
  let d3 := vectorDoubleTest next 1024 randomize d2.2
  let d4 := vectorDoubleTest next (1024 * 1024) randomize d3.2
  let c1 := vectorCharTest next (1024 * 1024 * 1024) randomize d4.2
  let p1 := vectorPoDStructTest 1
  let p2 := vectorPoDStructTest 64
  let p3 := vectorPoDStructTest 1024
  let p4 := vectorPoDStructTest (1024 * 1024)
  let p5 := vectorPoDStructTest (1024 * 1024 * 64)
  let ch1 := vectorPoDChildTest (1024 * 64)
  { invocations := [d1.1, d2.1, d3.1, d4.1, c1.1, p1, p2, p3, p4, p5, ch1],
    exitCode := 0,
    rngCalls := c1.2.rngCalls }

/-- The benchmark matrix `main` runs when `randomize = false`, written out:
every Vector(double) / Vector(uint8_t) payload is value-initialized (all
elements zero) and no generator state appears anywhere. -/
def fixedInvocations : List Invocation :=
  [ { name := "Vector(double) size " ++ toString 1,
      payload := Payload.vecDouble (List.replicate 1 (0 : ℚ)),
      numAverages := 10, validateData := false },
    { name := "Vector(double) size " ++ toString 16,
      payload := Payload.vecDouble (List.replicate 16 (0 : ℚ)),
      numAverages := 10, validateData := false },
    { name := "Vector(double) size " ++ toString 1024,
      payload := Payload.vecDouble (List.replicate 1024 (0 : ℚ)),
      numAverages := 10, validateData := false },
    { name := "Vector(double) size " ++ toString (1024 * 1024),
      payload := Payload.vecDouble (List.replicate (1024 * 1024) (0 : ℚ)),
      numAverages := 10, validateData := false },
    { name := "Vector(uint8_t) size " ++ toString (1024 * 1024 * 1024),
      payload := Payload.vecUInt8 (List.replicate (1024 * 1024 * 1024) (0 : Nat)),
      numAverages := 10, validateData := false },
    { name := "Vector(PoDStruct) size " ++ toString 1,
      payload := Payload.vecPoDStruct 1,
      numAverages := 10, validateData := false },
    { name := "Vector(PoDStruct) size " ++ toString 64,
      payload := Payload.vecPoDStruct 64,
      numAverages := 10, validateData := false },
    { name := "Vector(PoDStruct) size " ++ toString 1024,
      payload := Payload.vecPoDStruct 1024,
      numAverages := 10, validateData := false },
    { name := "Vector(PoDStruct) size " ++ toString (1024 * 1024),
      payload := Payload.vecPoDStruct (1024 * 1024),
      numAverages := 10, validateData := false },
    { name := "Vector(PoDStruct) size " ++ toString (1024 * 1024 * 64),
      payload := Payload.vecPoDStruct (1024 * 1024 * 64),
      numAverages := 10, validateData := false },
    { name := "Vector(PoDChild) size " ++ toString (1024 * 64),
      payload := Payload.vecPoDChild (1024 * 64),
      numAverages := 10, validateData := false } ]

/-- Concrete harness environment over `DataT = Nat`, used to instantiate
theorems with hypotheses at explicit inputs. -/
def envNat : TestEnv Nat :=
  { data := 0
    boostSaveSize := fun _ => 4
    cerealSaveSize := fun _ => 8
    boostSaveMs := fun _ => 1
    boostLoadMs := fun _ => 2
    cerealSaveMs := fun _ => 3
    cerealLoadMs := fun _ => 4 }

/-- Concrete harness environment in which the cereal averages are exactly
twice the boost averages: boost save takes 3 ms per iteration and cereal
save 6 ms. -/
def envRatio : TestEnv Nat :=
  { data := 0
    boostSaveSize := fun _ => 4
    cerealSaveSize := fun _ => 8
    boostSaveMs := fun _ => 3
    boostLoadMs := fun _ => 2
    cerealSaveMs := fun _ => 6
    cerealLoadMs := fun _ => 4 }

/-- Concrete harness environment in which every boost (baseline) measurement
is zero: boost save and load complete in 0 ms and the boost archive writes
0 bytes, while the cereal measurements are nonzero. -/
def envZeroBaseline : TestEnv Nat :=
  { data := 0
    boostSaveSize := fun _ => 0
    cerealSaveSize := fun _ => 7
    boostSaveMs := fun _ => 0
    boostLoadMs := fun _ => 0
    cerealSaveMs := fun _ => 3
    cerealLoadMs := fun _ => 5 }

theorem countSaves_append {DataT : Type} (a : Adapter)
    (l1 l2 : List (Event DataT)) :
    countSaves a (l1 ++ l2) = countSaves a l1 + countSaves a l2 := by
  simp [countSaves, List.countP_append]

theorem countLoads_append {DataT : Type} (a : Adapter)
    (l1 l2 : List (Event DataT)) :
    countLoads a (l1 ++ l2) = countLoads a l1 + countLoads a l2 := by
  simp [countLoads, List.countP_append]

theorem countSaves_testIter {DataT : Type} (env : TestEnv DataT) (v : Bool)
    (i : Nat) (s : TestAccum) (a : Adapter) :
    countSaves a (testIter env v i s).2 = 1 := by
  cases v <;> cases a <;> simp [testIter, countSaves]

theorem countLoads_testIter {DataT : Type} (env : TestEnv DataT) (v : Bool)
    (i : Nat) (s : TestAccum) (a : Adapter) :
    countLoads a (testIter env v i s).2 = 1 := by
  cases v <;> cases a <;> simp [testIter, countLoads]

theorem countSaves_testLoop {DataT : Type} (env : TestEnv DataT) (v : Bool)
    (n : Nat) (a : Adapter) : countSaves a (testLoop env v n).2 = n := by
  induction n with
  | zero => simp [testLoop, countSaves]
  | succ m ih =>
    simp only [testLoop, countSaves_append, ih, countSaves_testIter]

theorem countLoads_testLoop {DataT : Type} (env : TestEnv DataT) (v : Bool)
    (n : Nat) (a : Adapter) : countLoads a (testLoop env v n).2 = n := by
  induction n with
  | zero => simp [testLoop, countLoads]
  | succ m ih =>
    simp only [testLoop, countLoads_append, ih, countLoads_testIter]

theorem testLoop_boostSize {DataT : Type} (env : TestEnv DataT) (v : Bool)
    (n : Nat) :
    1 ≤ n → (testLoop env v n).1.boostSize = env.boostSaveSize env.data := by
  induction n with
  | zero => intro h; exact absurd h (by decide)
  | succ m ih =>
    intro _
    cases m with
    | zero => simp [testLoop, testIter, initAccum]
    | succ k =>
      have h := ih (Nat.succ_le_succ (Nat.zero_le k))
      show (testIter env v (k + 1) (testLoop env v (k + 1)).1).1.boostSize = _
      simp only [testIter]
      rw [h]
      exact ite_self _

theorem testLoop_cerealSize {DataT : Type} (env : TestEnv DataT) (v : Bool)
    (n : Nat) :
    1 ≤ n → (testLoop env v n).1.cerealSize = env.cerealSaveSize env.data := by
  induction n with
  | zero => intro h; exact absurd h (by decide)
  | succ m ih =>
    intro _
    cases m with
    | zero => simp [testLoop, testIter, initAccum]
    | succ k =>
      have h := ih (Nat.succ_le_succ (Nat.zero_le k))
      show (testIter env v (k + 1) (testLoop env v (k + 1)).1).1.cerealSize = _
      simp only [testIter]
      rw [h]
      exact ite_self _

theorem testIter_save_payload {DataT : Type} (env : TestEnv DataT) (v : Bool)
    (i : Nat) (s : TestAccum) :
    ∀ e ∈ (testIter env v i s).2, ∀ a p, e = Event.save a p → p = env.data := by
  intro e he a p hep
  subst hep
  cases v <;> simp [testIter] at he <;>
    rcases he with ⟨_, h⟩ | ⟨_, h⟩ <;> exact h

theorem testLoop_save_payload {DataT : Type} (env : TestEnv DataT) (v : Bool)
    (n : Nat) :
    ∀ e ∈ (testLoop env v n).2, ∀ a p, e = Event.save a p → p = env.data := by
  induction n with
  | zero => intro e he; simp [testLoop] at he
  | succ m ih =>
    intro e he a p hep
    simp only [testLoop, List.mem_append] at he
    rcases he with h | h
    · exact ih e h a p hep
    · exact testIter_save_payload env v m (testLoop env v m).1 e h a p hep

theorem testIter_validate_irrelevant {DataT : Type} (env : TestEnv DataT)
    (i : Nat) (s : TestAccum) :
    testIter env true i s = testIter env false i s := rfl

theorem testLoop_validate_irrelevant {DataT : Type} (env : TestEnv DataT)
    (n : Nat) : testLoop env true n = testLoop env false n := by
  induction n with
  | zero => rfl
  | succ m ih =>
    simp only [testLoop, ih, testIter_validate_irrelevant]

theorem stringFill_length {G : Type} (next : G → Nat × G) (cs : List Nat)
    (g : G) : (stringFill next cs g).1.length = cs.length := by
  induction cs generalizing g with
  | nil => rfl
  | cons c cs ih => simp [stringFill, ih]

theorem stringFill_mem {G : Type} (next : G → Nat × G) (cs : List Nat)
    (g : G) : ∀ c ∈ (stringFill next cs g).1, 32 ≤ c ∧ c ≤ 126 := by
  induction cs generalizing g with
  | nil => intro c hc; simp [stringFill] at hc
  | cons d cs ih =>
    intro c hc
    simp only [stringFill, List.mem_cons] at hc
    rcases hc with h | h
    · subst h
      simp only [uniform_int_distribution]
      have hm : (next g).1 % (126 - 32 + 1) < 126 - 32 + 1 :=
        Nat.mod_lt _ (by decide)
      omega
    · exact ih _ c h

/-- C1: the source has no guard on `numAverages`; at `numAverages = 0` the
harness does not refuse to execute — it runs to completion, performs no
timing iteration (the trace is empty), and still computes every average as
`total / numAverages` with divisor zero (here `ℚ` returns the junk value 0
where the IEEE-754 doubles of the source produce `NaN`). -/
theorem test_zero_averages_executes :
    test envNat 0 false =
      ({ averageBoostSave := 0, averageBoostLoad := 0, averageCerealSave := 0,
         averageCerealLoad := 0, cerealSaveP := 0, cerealLoadP := 0,
         cerealSizeP := 0, boostSize := 0, cerealSize := 0,
         totalBoostSave := 0, totalBoostLoad := 0, totalCerealSave := 0,
         totalCerealLoad := 0 }, ([] : List (Event Nat))) := by
  norm_num [test, testLoop, initAccum]

/-- C2: the harness's observable behaviour — report and full adapter-call
trace — is identical for `validateData = true` and `validateData = false`:
the validation branches of the source (lines 166-167, 181-182) guard only the
empty statement `;  // TODO`, so no round-trip comparison is ever performed
and no test ever fails on a mismatch. -/
theorem test_validateData_no_effect {DataT : Type} (env : TestEnv DataT)
    (numAverages : Nat) :
    test env numAverages true = test env numAverages false := by
  simp only [test, testLoop_validate_irrelevant]

/-- C3: the ratio computations are not guarded against a zero baseline.  In
an environment where every boost (baseline) measurement is zero — 0 ms save
and load, 0-byte output — the harness still evaluates
`averageCerealSave / averageBoostSave` and `cerealSize / boostSize`: the
report's ratio fields equal exactly those quotients with zero denominators
(`ℚ` junk value 0 standing for the IEEE-754 `inf`/`NaN` of the source). -/
theorem test_ratio_unguarded :
    (test envZeroBaseline 2 false).1.averageBoostSave = 0 ∧
    (test envZeroBaseline 2 false).1.boostSize = 0 ∧
    (test envZeroBaseline 2 false).1.averageCerealSave = 3 ∧
    (test envZeroBaseline 2 false).1.cerealSaveP =
      (test envZeroBaseline 2 false).1.averageCerealSave /
        (test envZeroBaseline 2 false).1.averageBoostSave ∧
    (test envZeroBaseline 2 false).1.cerealSizeP =
      ((test envZeroBaseline 2 false).1.cerealSize : ℚ) /
        ((test envZeroBaseline 2 false).1.boostSize : ℚ) := by
  refine ⟨?_, ?_, ?_, rfl, rfl⟩ <;>
    norm_num [test, testLoop, testIter, initAccum, envZeroBaseline]

/-- C4: for every payload, adapter behaviour and `numAverages ≥ 1`, the
recorded serialized sizes `boostSize` / `cerealSize` equal the size of the
output sink produced by the corresponding adapter's save on the first
iteration (the save output is deterministic in the payload, so later
iterations observe the same size and never change the recorded value). -/
theorem test_size_first_iteration {DataT : Type} (env : TestEnv DataT)
    (numAverages : Nat) (validateData : Bool) (h : 1 ≤ numAverages) :
    (test env numAverages validateData).1.boostSize =
      env.boostSaveSize env.data ∧
    (test env numAverages validateData).1.cerealSize =
      env.cerealSaveSize env.data :=
  ⟨testLoop_boostSize env validateData numAverages h,
   testLoop_cerealSize env validateData numAverages h⟩

theorem test_size_first_iteration_witness :
    1 ≤ 2 ∧
    ((test envNat 2 false).1.boostSize = envNat.boostSaveSize envNat.data ∧
     (test envNat 2 false).1.cerealSize = envNat.cerealSaveSize envNat.data) :=
  ⟨by decide, test_size_first_iteration envNat 2 false (by decide)⟩

/-- C5: one call of `test` with `numAverages = N > 0` makes exactly N save
calls and exactly N load calls through each of the two adapters. -/
theorem test_call_counts {DataT : Type} (env : TestEnv DataT)
    (numAverages : Nat) (validateData : Bool) (h : 0 < numAverages)
    (a : Adapter) :
    countSaves a (test env numAverages validateData).2 = numAverages ∧
    countLoads a (test env numAverages validateData).2 = numAverages :=
  ⟨countSaves_testLoop env validateData numAverages a,
   countLoads_testLoop env validateData numAverages a⟩

theorem test_call_counts_witness :
    0 < 2 ∧
    (countSaves Adapter.boost (test envNat 2 false).2 = 2 ∧
     countLoads Adapter.boost (test envNat 2 false).2 = 2) :=
  ⟨by decide, test_call_counts envNat 2 false (by decide) Adapter.boost⟩

/-- C6: for `numAverages > 0` the reported averages equal the accumulated
totals divided by `numAverages`, the reported cereal-relative ratios equal
average-cereal-over-average-boost (and recorded-size quotient), and in
particular when the boost average save time is `T ≠ 0` and the cereal
average save time is `2T`, the reported save ratio is exactly 2. -/
theorem test_report_formulas {DataT : Type} (env : TestEnv DataT)
    (numAverages : Nat) (validateData : Bool) (T : ℚ)
    (h : 0 < numAverages) :
    (test env numAverages validateData).1.averageBoostSave =
      ((test env numAverages validateData).1.totalBoostSave : ℚ) /
        (numAverages : ℚ) ∧
    (test env numAverages validateData).1.averageBoostLoad =
      ((test env numAverages validateData).1.totalBoostLoad : ℚ) /
        (numAverages : ℚ) ∧
    (test env numAverages validateData).1.averageCerealSave =
      ((test env numAverages validateData).1.totalCerealSave : ℚ) /
        (numAverages : ℚ) ∧
    (test env numAverages validateData).1.averageCerealLoad =
      ((test env numAverages validateData).1.totalCerealLoad : ℚ) /
        (numAverages : ℚ) ∧
    (test env numAverages validateData).1.cerealSaveP =
      (test env numAverages validateData).1.averageCerealSave /
        (test env numAverages validateData).1.averageBoostSave ∧
    (test env numAverages validateData).1.cerealLoadP =
      (test env numAverages validateData).1.averageCerealLoad /
        (test env numAverages validateData).1.averageBoostLoad ∧
    (test env numAverages validateData).1.cerealSizeP =
      ((test env numAverages validateData).1.cerealSize : ℚ) /
        ((test env numAverages validateData).1.boostSize : ℚ) ∧
    ((test env numAverages validateData).1.averageBoostSave = T →
      (test env numAverages validateData).1.averageCerealSave = 2 * T →
      T ≠ 0 → (test env numAverages validateData).1.cerealSaveP = 2) := by
  refine ⟨rfl, rfl, rfl, rfl, rfl, rfl, rfl, ?_⟩
  intro h1 h2 hT
  show (test env numAverages validateData).1.averageCerealSave /
      (test env numAverages validateData).1.averageBoostSave = 2
  rw [h1, h2, mul_div_assoc, div_self hT, mul_one]

theorem test_report_formulas_witness :
    0 < 2 ∧ (test envRatio 2 false).1.averageBoostSave = 3 ∧
    (test envRatio 2 false).1.averageCerealSave = 2 * 3 ∧ (3 : ℚ) ≠ 0 ∧
    (test envRatio 2 false).1.cerealSaveP = 2 :=
  ⟨by decide,
   by norm_num [test, testLoop, testIter, initAccum, envRatio],
   by norm_num [test, testLoop, testIter, initAccum, envRatio],
   by norm_num,
   (test_report_formulas envRatio 2 false 3 (by decide)).2.2.2.2.2.2.2
     (by norm_num [test, testLoop, testIter, initAccum, envRatio])
     (by norm_num [test, testLoop, testIter, initAccum, envRatio])
     (by norm_num)⟩

/-- C7: the harness never mutates the payload: every save event in the trace
of a run of `test` — for either adapter, on any iteration — carries exactly
the payload value `env.data` the caller supplied; between iterations the
payload is only read (the model threads it unchanged). -/
theorem test_payload_unchanged {DataT : Type} (env : TestEnv DataT)
    (numAverages : Nat) (validateData : Bool) (e : Event DataT)
    (he : e ∈ (test env numAverages validateData).2) (a : Adapter) (p : DataT)
    (hp : e = Event.save a p) : p = env.data :=
  testLoop_save_payload env validateData numAverages e he a p hp

theorem test_payload_unchanged_witness :
    Event.save Adapter.boost (0 : Nat) ∈ (test envNat 1 false).2 ∧
    (0 : Nat) = envNat.data :=
  ⟨by decide,
   test_payload_unchanged envNat 1 false (Event.save Adapter.boost 0)
     (by decide) Adapter.boost 0 rfl⟩

theorem main_eq_fixed {G : Type} (next : G → Nat × G) (seed : G) :
    main next seed =
      { invocations := fixedInvocations, exitCode := 0, rngCalls := 0 } := rfl

/-- C8: for every generator implementation and seed, the driver runs the
fixed benchmark matrix in one deterministic order — Vector(double) of sizes
1, 16, 1024, 1048576; Vector(uint8_t) of size 1073741824; Vector(PoDStruct)
of sizes 1, 64, 1024, 1048576, 67108864; Vector(PoDChild) of size 65536 —
invoking the harness exactly once per entry, 11 invocations in total, and
returns exit code 0. -/
theorem main_matrix {G : Type} (next : G → Nat × G) (seed : G) :
    ((main next seed).invocations.map fun inv =>
        (inv.payload.kind, inv.payload.count)) =
      [(PayloadKind.vecDouble, 1), (PayloadKind.vecDouble, 16),
       (PayloadKind.vecDouble, 1024), (PayloadKind.vecDouble, 1048576),
       (PayloadKind.vecUInt8, 1073741824),
       (PayloadKind.vecPoDStruct, 1), (PayloadKind.vecPoDStruct, 64),
       (PayloadKind.vecPoDStruct, 1024), (PayloadKind.vecPoDStruct, 1048576),
       (PayloadKind.vecPoDStruct, 67108864),
       (PayloadKind.vecPoDChild, 65536)] ∧
    (main next seed).invocations.length = 11 ∧
    (main next seed).exitCode = 0 := by
  rw [main_eq_fixed]
  refine ⟨?_, ?_, rfl⟩ <;>
    simp only [fixedInvocations, List.map_cons, List.map_nil, Payload.kind,
      Payload.count, List.length_replicate, List.length_cons, List.length_nil]

/-- C10: the driver's `randomize` flag is the compile-time constant `false`,
and consequently one run of `main` is a fixed constant: it does not depend on
the generator implementation `next` nor on the `random_device` seed, every
Vector(double) / Vector(uint8_t) payload it hands to the harness is
value-initialized (`List.replicate _ 0`, all elements zero), and the
`rngC` / `rngD` wrappers around `random_value` are invoked zero times. -/
theorem main_not_randomized {G : Type} (next : G → Nat × G) (seed : G) :
    randomize = false ∧
    main next seed =
      { invocations := fixedInvocations, exitCode := 0, rngCalls := 0 } :=
  ⟨rfl, main_eq_fixed next seed⟩

/-- C9: for every generator state, the string produced by the textual
`random_value` has length in `[3, 30]` — it is `3 + draw % 28`, the image of
`uniform_int_distribution(3, 30)` — and every character code lies in the
printable ASCII range `[0x20, 0x7E]`, each being drawn by
`uniform_int_distribution(0x20, 0x7E)`. -/
theorem random_value_string_spec {G : Type} (next : G → Nat × G) (g : G) :
    3 ≤ (random_value_string next g).1.length ∧
    (random_value_string next g).1.length ≤ 30 ∧
    ∀ c ∈ (random_value_string next g).1, 32 ≤ c ∧ c ≤ 126 := by
  unfold random_value_string
  refine ⟨?_, ?_, stringFill_mem next _ _⟩ <;>
    · rw [stringFill_length]
      simp only [uniform_int_distribution, List.length_replicate]
      have hm : (next g).1 % (30 - 3 + 1) < 30 - 3 + 1 := Nat.mod_lt _ (by decide)
      omega

end Performance
